import Mathlib

/-
Shallow embedding of src/js/webrtc-client.js (class WebRTCClient).

The client is single-threaded and event-driven; each handler runs to
completion, so every method is modelled as a pure function from client
state to client state.  The opaque browser/media-engine operations
(getUserMedia, createOffer, createAnswer, setLocalDescription,
setRemoteDescription, addIceCandidate) are supplied by an `Env` record as
`Except String` results, mirroring the fact that each `await` in the source
either yields a value or throws an Error whose `.message` the catch blocks
append to the reason string.  Outbound WebSocket messages and callback
invocations (onError, onCallEnded, onConnectionStateChange, onLocalStream)
are recorded in append-only logs inside the state, oldest first.
-/

namespace WebRTCClient

/-- A media track of the local stream: its identity, its kind
("video" or "audio") and its `enabled` flag. -/
structure Track where
  id : Nat
  kind : String
  enabled : Bool
deriving DecidableEq, Repr

/-- A MediaStream as returned by getUserMedia: an identity plus its tracks. -/
structure Stream where
  id : Nat
  tracks : List Track
deriving DecidableEq, Repr

/-- An RTCPeerConnection as far as the client observes it: a creation
counter (so that creating a second peer context is detectable), the local
and remote session descriptions, the ids of the tracks added via addTrack,
and the candidates applied via addIceCandidate, in application order. -/
structure PeerConn where
  pcId : Nat
  localDesc : Option String
  remoteDesc : Option String
  addedTracks : List Nat
  appliedCandidates : List String
deriving DecidableEq, Repr

/-- A signaling message: `type` is one of join / offer / answer /
ice-candidate / call-ended; the other fields are present or not depending
on the type, as in the JSON objects of the source. -/
structure SigMsg where
  type : String
  sessionId : Option String
  sdp : Option String
  candidate : Option String
deriving DecidableEq, Repr

/-- The mutable fields of a WebRTCClient instance, plus append-only
observation logs.  `ws` is `some readyState` when a WebSocket object is
held and `none` after `this.ws = null`.  `pcCounter` counts how many peer
contexts have ever been created (`new RTCPeerConnection`).  `sent` records
outbound WebSocket messages, `errors` the onError reasons,
`callEndedCount` the number of onCallEnded invocations, `connEvents` the
arguments of onConnectionStateChange invocations, `localStreamEvents` the
stream ids passed to onLocalStream, and `stoppedTracks` the ids of tracks
on which `track.stop()` was called. -/
structure CState where
  sessionId : Option String
  ws : Option Nat
  pc : Option PeerConn
  localStream : Option Stream
  remoteStream : Option Stream
  isCallActive : Bool
  isLocalVideoEnabled : Bool
  isLocalAudioEnabled : Bool
  pcCounter : Nat
  sent : List SigMsg
  errors : List String
  callEndedCount : Nat
  connEvents : List String
  localStreamEvents : List Nat
  stoppedTracks : List Nat
deriving DecidableEq, Repr

/-- Results of the opaque collaborator operations awaited by the client.
Each field is what the corresponding `await` yields in the handler being
modelled: `capture` for navigator.mediaDevices.getUserMedia, and so on. -/
structure Env where
  capture : Except String Stream
  createOffer : Except String String
  createAnswer : Except String String
  setRemote : Except String Unit
  setLocal : Except String Unit
  addIce : Except String Unit

/-- WebSocket.OPEN, the readyState constant checked before sending. -/
def WebSocketOPEN : Nat := 1

/-- The guard `this.ws && this.ws.readyState === WebSocket.OPEN`. -/
def wsOpen (s : CState) : Bool :=
  match s.ws with
  | some rs => rs = WebSocketOPEN
  | none => false

/-- `sendWebSocketMessage`: send when the socket is held and open,
otherwise only console.error (no state change). -/
def sendWebSocketMessage (s : CState) (m : SigMsg) : CState :=
  if wsOpen s then { s with sent := s.sent ++ [m] } else s

/-- Invocation of the onError callback. -/
def fireError (s : CState) (msg : String) : CState :=
  { s with errors := s.errors ++ [msg] }

/-- Invocation of the onConnectionStateChange callback. -/
def fireConnectionStateChange (s : CState) (st : String) : CState :=
  { s with connEvents := s.connEvents ++ [st] }

/-- Invocation of the onCallEnded callback. -/
def fireCallEnded (s : CState) : CState :=
  { s with callEndedCount := s.callEndedCount + 1 }

/-- Invocation of the onLocalStream callback. -/
def fireLocalStream (s : CState) (st : Stream) : CState :=
  { s with localStreamEvents := s.localStreamEvents ++ [st.id] }

/-- `createPeerConnection`: `this.pc = new RTCPeerConnection(this.rtcConfig)`.
A fresh context gets the next creation counter as identity. -/
def createPeerConnection (s : CState) : CState :=
  { s with
    pc := some
      { pcId := s.pcCounter
        localDesc := none
        remoteDesc := none
        addedTracks := []
        appliedCandidates := [] }
    pcCounter := s.pcCounter + 1 }

/-- `stream.getTracks().forEach(track => this.pc.addTrack(track, stream))`. -/
def addLocalTracks (s : CState) (st : Stream) : CState :=
  match s.pc with
  | some p =>
      { s with pc := some { p with addedTracks := p.addedTracks ++ st.tracks.map Track.id } }
  | none => s

/-- `this.pc.setRemoteDescription(...)` recorded on the held context. -/
def setPcRemoteDesc (s : CState) (d : String) : CState :=
  match s.pc with
  | some p => { s with pc := some { p with remoteDesc := some d } }
  | none => s

/-- `this.pc.setLocalDescription(...)` recorded on the held context. -/
def setPcLocalDesc (s : CState) (d : String) : CState :=
  match s.pc with
  | some p => { s with pc := some { p with localDesc := some d } }
  | none => s

/-- `startCall()`: get user media, announce the local stream, create a peer
context, add the local tracks, create and set a local offer, send the
offer message, set isCallActive and announce "connecting"; any thrown
error is caught and surfaced as onError("Failed to start call: " + msg). -/
def startCall (env : Env) (s : CState) : CState :=
  match env.capture with
  | .error m => fireError s ("Failed to start call: " ++ m)
  | .ok stream =>
    let s1 := fireLocalStream { s with localStream := some stream } stream
    let s2 := addLocalTracks (createPeerConnection s1) stream
    match env.createOffer with
    | .error m => fireError s2 ("Failed to start call: " ++ m)
    | .ok offerSdp =>
      match env.setLocal with
      | .error m => fireError s2 ("Failed to start call: " ++ m)
      | .ok _ =>
        let s3 := setPcLocalDesc s2 offerSdp
        let s4 := sendWebSocketMessage s3
          { type := "offer", sessionId := s3.sessionId
            sdp := some offerSdp, candidate := none }
        fireConnectionStateChange { s4 with isCallActive := true } "connecting"

/-- The part of `handleOffer(offerSdp)` after the local stream is ensured:
create the peer context and add tracks only if no context is held, set the
remote description from the offer, create and set a local answer, send the
answer message, set isCallActive and announce "connecting"; errors are
caught as onError("Failed to handle offer: " + msg). -/
def handleOfferRest (env : Env) (offerSdp : String) (s : CState) : CState :=
  let s1 :=
    match s.pc, s.localStream with
    | none, some st => addLocalTracks (createPeerConnection s) st
    | none, none => createPeerConnection s
    | some _, _ => s
  match env.setRemote with
  | .error m => fireError s1 ("Failed to handle offer: " ++ m)
  | .ok _ =>
    let s2 := setPcRemoteDesc s1 offerSdp
    match env.createAnswer with
    | .error m => fireError s2 ("Failed to handle offer: " ++ m)
    | .ok answerSdp =>
      match env.setLocal with
      | .error m => fireError s2 ("Failed to handle offer: " ++ m)
      | .ok _ =>
        let s3 := setPcLocalDesc s2 answerSdp
        let s4 := sendWebSocketMessage s3
          { type := "answer", sessionId := s3.sessionId
            sdp := some answerSdp, candidate := none }
        fireConnectionStateChange { s4 with isCallActive := true } "connecting"

/-- `handleOffer(offerSdp)`: get user media first if no local stream is
held (announcing it via onLocalStream), then proceed with the context /
answer part; a capture failure is caught as
onError("Failed to handle offer: " + msg). -/
def handleOffer (env : Env) (offerSdp : String) (s : CState) : CState :=
  match s.localStream with
  | some _ => handleOfferRest env offerSdp s
  | none =>
    match env.capture with
    | .error m => fireError s ("Failed to handle offer: " ++ m)
    | .ok stream =>
      handleOfferRest env offerSdp
        (fireLocalStream { s with localStream := some stream } stream)

/-- `handleAnswer(answerSdp)`: if a context is held, set its remote
description; a failure is caught as
onError("Failed to handle answer: " + msg); with no context, nothing
happens. -/
def handleAnswer (env : Env) (answerSdp : String) (s : CState) : CState :=
  match s.pc with
  | none => s
  | some p =>
    match env.setRemote with
    | .error m => fireError s ("Failed to handle answer: " ++ m)
    | .ok _ => { s with pc := some { p with remoteDesc := some answerSdp } }

/-- `handleIceCandidate(candidate)`: if a context is held, apply the
candidate via addIceCandidate; a failure there is caught and only logged
to the console; with no context, nothing happens. -/
def handleIceCandidate (env : Env) (c : String) (s : CState) : CState :=
  match s.pc with
  | none => s
  | some p =>
    match env.addIce with
    | .error _ => s
    | .ok _ =>
      { s with pc := some { p with appliedCandidates := p.appliedCandidates ++ [c] } }

/-- `endCall()`: send a call-ended message when the socket is open, close
and drop the peer context, stop every local track and drop the stream,
close and drop the socket, clear isCallActive, invoke onCallEnded, then
fire-and-forget the session-registry POST (whose failure is swallowed and
has no local effect). -/
def endCall (s : CState) : CState :=
  let s1 := sendWebSocketMessage s
    { type := "call-ended", sessionId := s.sessionId, sdp := none, candidate := none }
  let s2 := { s1 with pc := none }
  let s3 :=
    match s2.localStream with
    | some st =>
        { s2 with localStream := none
                  stoppedTracks := s2.stoppedTracks ++ st.tracks.map Track.id }
    | none => s2
  let s4 := { s3 with ws := none }
  fireCallEnded { s4 with isCallActive := false }

/-- Payload extraction: a missing field of the JSON message is passed
through as the empty string (the handlers only forward it to the engine). -/
def payloadOf : Option String → String
  | some p => p
  | none => ""

/-- `handleSignalingMessage(message)`: dispatch by `message.type` only;
unknown types are logged and ignored. -/
def handleSignalingMessage (env : Env) (m : SigMsg) (s : CState) : CState :=
  if m.type = "offer" then handleOffer env (payloadOf m.sdp) s
  else if m.type = "answer" then handleAnswer env (payloadOf m.sdp) s
  else if m.type = "ice-candidate" then handleIceCandidate env (payloadOf m.candidate) s
  else if m.type = "call-ended" then endCall s
  else s

/-- The track kind string of video tracks. -/
def videoKind : String := "video"

/-- The track kind string of audio tracks. -/
def audioKind : String := "audio"

/-- `stream.getVideoTracks()`. -/
def getVideoTracks (st : Stream) : List Track :=
  st.tracks.filter fun t => t.kind = videoKind

/-- `stream.getAudioTracks()`. -/
def getAudioTracks (st : Stream) : List Track :=
  st.tracks.filter fun t => t.kind = audioKind

/-- Assignment `track.enabled = b` on the first track of kind `k`, seen
from the stream holding the track object. -/
def setFirstEnabled : List Track → String → Bool → List Track
  | [], _, _ => []
  | t :: ts, k, b =>
      if t.kind = k then { t with enabled := b } :: ts
      else t :: setFirstEnabled ts k b

/-- `toggleVideo()`: with a local stream holding a video track, flip the
flag, apply it to that track and return the new flag; otherwise return
false with no change. -/
def toggleVideo (s : CState) : Bool × CState :=
  match s.localStream with
  | none => (false, s)
  | some st =>
    match (getVideoTracks st).head? with
    | none => (false, s)
    | some _ =>
      let b := !s.isLocalVideoEnabled
      (b, { s with
              isLocalVideoEnabled := b
              localStream := some { st with tracks := setFirstEnabled st.tracks videoKind b } })

/-- `toggleAudio()`: with a local stream holding an audio track, flip the
flag, apply it to that track and return the new flag; otherwise return
false with no change. -/
def toggleAudio (s : CState) : Bool × CState :=
  match s.localStream with
  | none => (false, s)
  | some st =>
    match (getAudioTracks st).head? with
    | none => (false, s)
    | some _ =>
      let b := !s.isLocalAudioEnabled
      (b, { s with
              isLocalAudioEnabled := b
              localStream := some { st with tracks := setFirstEnabled st.tracks audioKind b } })

/-- The abstract ConnectionState of the spec for one controller: the last
label announced through onConnectionStateChange, "idle" before any
announcement. -/
def connState (s : CState) : String :=
  match s.connEvents.getLast? with
  | some st => st
  | none => "idle"

/-- The string the source passes to onConnectionStateChange when it enters
the negotiation phase; the spec names this abstract phase `negotiating`. -/
def negotiatingLabel : String := "connecting"

/-- Track ids of an optional stream (empty when no stream is held). -/
def streamTrackIds : Option Stream → List Nat
  | none => []
  | some st => st.tracks.map Track.id

/-- A freshly constructed client: all handles null, flags at their
constructor defaults, all logs empty. -/
def initState (sid : Option String) (wsRS : Option Nat) : CState :=
  { sessionId := sid
    ws := wsRS
    pc := none
    localStream := none
    remoteStream := none
    isCallActive := false
    isLocalVideoEnabled := true
    isLocalAudioEnabled := true
    pcCounter := 0
    sent := []
    errors := []
    callEndedCount := 0
    connEvents := []
    localStreamEvents := []
    stoppedTracks := [] }

/-- A sample captured stream with one video and one audio track. -/
def sampleStream : Stream :=
  { id := 7
    tracks := [
      { id := 1, kind := "video", enabled := true },
      { id := 2, kind := "audio", enabled := true }] }

/-- An environment in which every collaborator operation succeeds. -/
def envOK : Env :=
  { capture := .ok sampleStream
    createOffer := .ok ("offer-sdp")
    createAnswer := .ok ("answer-sdp")
    setRemote := .ok ()
    setLocal := .ok ()
    addIce := .ok () }

/-- The session id of the sample active session. -/
def sidA : Option String := some ("S1")

/-- A foreign session id, distinct from the active one. -/
def sidB : Option String := some ("S2")

/-- Sample incoming ICE candidate payloads. -/
def candA : String := "c0"

/-- A second sample incoming ICE candidate payload. -/
def candB : String := "c1"

/-- A sample offer sdp arriving from the remote side. -/
def offerInbound : String := "their-offer"

/-- A freshly constructed client for session S1 with an open socket. -/
def idleState : CState := initState sidA (some WebSocketOPEN)

/-- The client state right after a successful startCall(): holds a peer
context with a pending outbound local offer. -/
def glareState : CState := startCall envOK idleState

/-- An incoming offer message for the active session. -/
def offerIncoming : SigMsg :=
  { type := "offer", sessionId := sidA, sdp := some offerInbound, candidate := none }

/-- An incoming answer message for the active session. -/
def answerIncoming : SigMsg :=
  { type := "answer", sessionId := sidA, sdp := some ("their-answer"), candidate := none }

/-- An environment in which getUserMedia is denied and everything else
succeeds. -/
def envCaptureFail : Env :=
  { envOK with capture := .error ("Permission denied") }

/-- An environment in which createOffer fails and everything else
succeeds. -/
def envOfferFail : Env :=
  { envOK with createOffer := .error ("offer failed") }

/-- The outbound message endCall sends when the socket is open. -/
def callEndedMsg (sid : Option String) : SigMsg :=
  { type := "call-ended", sessionId := sid, sdp := none, candidate := none }

/-- A peer context as held after a successful startCall: the local offer is
pending, no remote description yet. -/
def pc0 : PeerConn :=
  { pcId := 0
    localDesc := some ("offer-sdp")
    remoteDesc := none
    addedTracks := [1, 2]
    appliedCandidates := [] }

/-- A client mid-negotiation: open socket, held peer context with a pending
local offer, held local stream, call active, "connecting" announced. -/
def activeState : CState :=
  { idleState with
      pc := some pc0
      localStream := some sampleStream
      isCallActive := true
      connEvents := ["connecting"] }

/-- An incoming call-ended message for the active session. -/
def ceIncoming : SigMsg :=
  { type := "call-ended", sessionId := sidA, sdp := none, candidate := none }

/-- An incoming call-ended message for a foreign session. -/
def foreignCeMsg : SigMsg :=
  { type := "call-ended", sessionId := sidB, sdp := none, candidate := none }

theorem getLast?_append_singleton {α : Type} (l : List α) (x : α) :
    (l ++ [x]).getLast? = some x := by
  rw [List.getLast?_append_cons]
  rfl

/-- Full characterization of endCall as a single state update. -/
theorem endCall_state (s : CState) :
    endCall s =
      { s with
        pc := none
        localStream := none
        ws := none
        isCallActive := false
        callEndedCount := s.callEndedCount + 1
        stoppedTracks := s.stoppedTracks ++ streamTrackIds s.localStream
        sent := s.sent ++ (if wsOpen s then [callEndedMsg s.sessionId] else []) } := by
  obtain ⟨sid, ws, pc, ls, rs, ica, v, a, pcc, snt, errs, cec, cev, lse, stt⟩ := s
  cases ws with
  | none =>
      cases ls <;>
        simp [endCall, sendWebSocketMessage, wsOpen, fireCallEnded, streamTrackIds,
          callEndedMsg]
  | some n =>
      by_cases h : n = 1 <;>
        cases ls <;>
          simp [endCall, sendWebSocketMessage, wsOpen, WebSocketOPEN, fireCallEnded,
            streamTrackIds, callEndedMsg, h]

/-- C1, counterexample.  The claim says an ice-candidate arriving before a
peer context / remote description exists is buffered and later applied,
never dropped.  In the code, with no peer context the handler does nothing
at all (the state is unchanged, so no buffer records the candidate), and
after the subsequent offer sets the remote description the context has an
empty applied-candidate list: the candidate was dropped. -/
theorem C1_counterexample :
    handleIceCandidate envOK candA idleState = idleState ∧
    ((handleOffer envOK offerInbound
        (handleIceCandidate envOK candA idleState)).pc.map
      PeerConn.appliedCandidates) = some [] :=
  ⟨rfl, rfl⟩

/-- C1, amended.  An incoming ice-candidate is applied immediately to the
peer context when one is held (whether or not a remote description is
set); when no peer context is held the candidate is silently dropped with
no buffering and no error. -/
theorem C1_candidate_handling (env : Env) (c : String) (s : CState) :
    (s.pc = none → handleIceCandidate env c s = s) ∧
    (∀ p, s.pc = some p → env.addIce = Except.ok () →
      handleIceCandidate env c s =
        { s with pc := some { p with appliedCandidates := p.appliedCandidates ++ [c] } }) := by
  constructor
  · intro h
    simp [handleIceCandidate, h]
  · intro p hp ha
    simp [handleIceCandidate, hp, ha]

/-- C1, witness for the amended theorem at concrete inputs: dropped with no
context, applied immediately (remote description still unset) with one. -/
theorem C1_candidate_handling_witness :
    handleIceCandidate envOK candA idleState = idleState ∧
    handleIceCandidate envOK candB activeState =
      { activeState with pc := some { pc0 with appliedCandidates := [candB] } } :=
  ⟨(C1_candidate_handling envOK candA _).1 rfl,
   by simpa using (C1_candidate_handling envOK candB activeState).2 pc0 rfl rfl⟩

/-- C2, counterexample.  The claim says two successive endCall() calls
produce exactly one onCallEnded invocation.  In the code every endCall()
call invokes onCallEnded unconditionally, so two calls produce two
invocations. -/
theorem C2_counterexample :
    (endCall (endCall activeState)).callEndedCount = 2 ∧
    activeState.callEndedCount = 0 ∧
    (endCall (endCall activeState)).errors = [] :=
  ⟨rfl, rfl, rfl⟩

/-- C2, amended.  endCall() produces no error, and a second call is a
no-op on every handle and flag (they are already null / false) except that
it invokes onCallEnded once more: each call fires the callback exactly
once, so two calls fire it twice. -/
theorem C2_endCall_second_call (s : CState) :
    endCall (endCall s) =
      { endCall s with callEndedCount := (endCall s).callEndedCount + 1 } ∧
    (endCall (endCall s)).errors = s.errors := by
  constructor
  · rw [endCall_state (endCall s), endCall_state s]
    simp [wsOpen, streamTrackIds]
  · rw [endCall_state (endCall s), endCall_state s]

/-- C3, counterexample.  The claim says that on receiving call-ended no
outbound call-ended message is sent in response.  In the code the handler
invokes the full endCall(), which sends an outbound call-ended because the
socket is still open. -/
theorem C3_counterexample :
    (handleSignalingMessage envOK ceIncoming activeState).sent =
      [callEndedMsg sidA] ∧
    activeState.sent = [] := by
  constructor
  · rfl
  · rfl

/-- C3, amended.  On receiving a call-ended message, local teardown runs
(peer context dropped, local tracks stopped and dropped) and onCallEnded
fires exactly once — but the handler invokes the full endCall(), so when
the signaling channel is open an outbound call-ended message is re-sent
and the channel is closed. -/
theorem C3_call_ended_handling (env : Env) (s : CState) (m : SigMsg)
    (ht : m.type = "call-ended") (hw : wsOpen s = true) :
    handleSignalingMessage env m s =
      { s with
        pc := none
        localStream := none
        ws := none
        isCallActive := false
        callEndedCount := s.callEndedCount + 1
        stoppedTracks := s.stoppedTracks ++ streamTrackIds s.localStream
        sent := s.sent ++ [callEndedMsg s.sessionId] } := by
  rw [handleSignalingMessage, ht]
  simp [endCall_state, hw]

/-- C3, witness: the amended theorem at the concrete mid-negotiation state
receiving the concrete call-ended message. -/
theorem C3_call_ended_handling_witness :
    handleSignalingMessage envOK ceIncoming activeState =
      { activeState with
        pc := none
        localStream := none
        ws := none
        isCallActive := false
        callEndedCount := 1
        stoppedTracks := [1, 2]
        sent := [callEndedMsg sidA] } := by
  simpa [activeState, initState, streamTrackIds, sampleStream, callEndedMsg] using
    C3_call_ended_handling envOK activeState ceIncoming rfl rfl

/-- C6, counterexample.  The claim says a message whose sessionId differs
from the active session id is silently ignored with no state change.  In
the code the dispatcher never reads sessionId: a call-ended message for
foreign session "S2" tears the active "S1" session down. -/
theorem C6_counterexample :
    handleSignalingMessage envOK foreignCeMsg activeState ≠ activeState ∧
    activeState.sessionId = sidA ∧
    foreignCeMsg.sessionId = sidB ∧ sidA ≠ sidB := by
  refine ⟨fun h => ?_, rfl, rfl, by decide⟩
  have hc := congrArg CState.callEndedCount h
  simp [handleSignalingMessage, foreignCeMsg, endCall_state, activeState, idleState,
    initState] at hc

/-- C6, amended.  Incoming signaling messages are dispatched by type alone;
the sessionId field is never read, so a message with a foreign session id
is processed exactly as one with the active session id — foreign-session
messages are not ignored. -/
theorem C6_sessionId_ignored (env : Env) (ty : String) (sid1 sid2 : Option String)
    (sdp cand : Option String) (s : CState) :
    handleSignalingMessage env
        { type := ty, sessionId := sid1, sdp := sdp, candidate := cand } s =
      handleSignalingMessage env
        { type := ty, sessionId := sid2, sdp := sdp, candidate := cand } s := rfl

/-- C10.  After endCall() the peer-context, local-stream and socket handles
are all null, the call-active flag is false, and every track of the
previously held local stream has been stopped. -/
theorem C10_endCall_cleanup (s : CState) :
    (endCall s).pc = none ∧
    (endCall s).localStream = none ∧
    (endCall s).ws = none ∧
    (endCall s).isCallActive = false ∧
    (endCall s).stoppedTracks = s.stoppedTracks ++ streamTrackIds s.localStream := by
  rw [endCall_state s]
  exact ⟨rfl, rfl, rfl, rfl, rfl⟩

/-- C4.  An offer received while this controller holds a peer context with
a pending outbound local offer (glare) creates no second peer context: the
creation counter is unchanged, the incoming offer becomes the remote
description of the existing context, the pending local offer is replaced
by the generated answer, and the answer is sent with the session's id. -/
theorem C4_glare_no_second_context (env : Env) (s : CState) (p : PeerConn) (st : Stream)
    (offerSdp lo ans : String)
    (hp : s.pc = some p) (_hlo : p.localDesc = some lo) (hs : s.localStream = some st)
    (ha : env.createAnswer = Except.ok ans) (hr : env.setRemote = Except.ok ())
    (hl : env.setLocal = Except.ok ()) (hw : s.ws = some WebSocketOPEN) :
    (handleOffer env offerSdp s).pcCounter = s.pcCounter ∧
    (handleOffer env offerSdp s).pc =
      some { p with remoteDesc := some offerSdp, localDesc := some ans } ∧
    (handleOffer env offerSdp s).sent =
      s.sent ++
        [{ type := "answer", sessionId := s.sessionId, sdp := some ans, candidate := none }] := by
  simp [handleOffer, hs, handleOfferRest, hp, hr, ha, hl, setPcRemoteDesc, setPcLocalDesc,
    sendWebSocketMessage, fireConnectionStateChange, wsOpen, hw, WebSocketOPEN]

/-- C4, witness: a controller that just ran startCall() (pending outbound
offer held) receives a concrete offer. -/
theorem C4_glare_no_second_context_witness :
    (handleOffer envOK offerInbound glareState).pcCounter = glareState.pcCounter ∧
    (handleOffer envOK offerInbound glareState).pc =
      some { pc0 with remoteDesc := some offerInbound, localDesc := some ("answer-sdp") } ∧
    (handleOffer envOK offerInbound glareState).sent =
      glareState.sent ++
        [{ type := "answer", sessionId := sidA, sdp := some ("answer-sdp"),
           candidate := none }] :=
  C4_glare_no_second_context envOK glareState pc0 sampleStream offerInbound
    ("offer-sdp") ("answer-sdp") rfl rfl rfl rfl rfl rfl rfl

/-- C5.  A startCall() in which capture and offer creation succeed and the
socket is open acquires the local stream, creates one fresh peer context,
attaches the local tracks to it, sets the local offer, announces the
negotiation phase label, and sends an offer message carrying the session's
id. -/
theorem C5_startCall_success (env : Env) (s : CState) (st : Stream) (offerSdp : String)
    (sid : String)
    (hc : env.capture = Except.ok st) (ho : env.createOffer = Except.ok offerSdp)
    (hl : env.setLocal = Except.ok ()) (hw : s.ws = some WebSocketOPEN)
    (hsid : s.sessionId = some sid) :
    (startCall env s).localStream = some st ∧
    (startCall env s).pcCounter = s.pcCounter + 1 ∧
    ((startCall env s).pc.map PeerConn.pcId) = some s.pcCounter ∧
    ((startCall env s).pc.map PeerConn.addedTracks) = some (st.tracks.map Track.id) ∧
    ((startCall env s).pc.map PeerConn.localDesc) = some (some offerSdp) ∧
    connState (startCall env s) = negotiatingLabel ∧
    (startCall env s).sent =
      s.sent ++
        [{ type := "offer", sessionId := some sid, sdp := some offerSdp,
           candidate := none }] := by
  simp [startCall, hc, ho, hl, fireLocalStream, createPeerConnection, addLocalTracks,
    setPcLocalDesc, sendWebSocketMessage, wsOpen, hw, WebSocketOPEN,
    fireConnectionStateChange, connState, negotiatingLabel, hsid,
    getLast?_append_singleton]

/-- C5, witness: startCall() on the fresh client. -/
theorem C5_startCall_success_witness :
    (startCall envOK idleState).localStream = some sampleStream ∧
    (startCall envOK idleState).pcCounter = idleState.pcCounter + 1 ∧
    ((startCall envOK idleState).pc.map PeerConn.pcId) = some idleState.pcCounter ∧
    ((startCall envOK idleState).pc.map PeerConn.addedTracks) =
      some (sampleStream.tracks.map Track.id) ∧
    ((startCall envOK idleState).pc.map PeerConn.localDesc) = some (some ("offer-sdp")) ∧
    connState (startCall envOK idleState) = negotiatingLabel ∧
    (startCall envOK idleState).sent =
      idleState.sent ++
        [{ type := "offer", sessionId := some ("S1"), sdp := some ("offer-sdp"),
           candidate := none }] :=
  C5_startCall_success envOK idleState sampleStream ("offer-sdp") ("S1")
    rfl rfl rfl rfl rfl

theorem handleAnswer_connEvents (env : Env) (d : String) (s : CState) :
    (handleAnswer env d s).connEvents = s.connEvents := by
  rcases hp : s.pc with _ | p
  · simp [handleAnswer, hp]
  · rcases hr : env.setRemote with m | u <;> simp [handleAnswer, hp, hr, fireError]

theorem handleIceCandidate_connEvents (env : Env) (c : String) (s : CState) :
    (handleIceCandidate env c s).connEvents = s.connEvents := by
  rcases hp : s.pc with _ | p
  · simp [handleIceCandidate, hp]
  · rcases hr : env.addIce with m | u <;> simp [handleIceCandidate, hp, hr]

/-- C7, counterexample.  The claim says processing an incoming signaling
message never invokes the connection-state-changed callback.  Processing a
concrete offer on the fresh client invokes it (with the negotiation
label). -/
theorem C7_counterexample :
    (handleSignalingMessage envOK offerIncoming idleState).connEvents ≠
      idleState.connEvents := by
  decide

/-- C7, amended.  Handling of answer, ice-candidate, call-ended and
unknown messages never invokes the connection-state-changed callback and
leaves the abstract connection state unchanged; offer handling is the
exception — on success it announces the negotiation label itself. -/
theorem C7_no_state_label_without_offer (env : Env) (m : SigMsg) (s : CState)
    (h : m.type ≠ "offer") :
    (handleSignalingMessage env m s).connEvents = s.connEvents ∧
    connState (handleSignalingMessage env m s) = connState s := by
  have hce : (handleSignalingMessage env m s).connEvents = s.connEvents := by
    rw [handleSignalingMessage, if_neg h]
    split_ifs with h1 h2 h3
    · exact handleAnswer_connEvents env _ s
    · exact handleIceCandidate_connEvents env _ s
    · rw [endCall_state]
    · rfl
  exact ⟨hce, by simp only [connState, hce]⟩

/-- C7, witness: an incoming answer at the mid-negotiation state leaves the
connection-state log and the abstract state unchanged. -/
theorem C7_no_state_label_without_offer_witness :
    (handleSignalingMessage envOK answerIncoming activeState).connEvents =
      activeState.connEvents ∧
    connState (handleSignalingMessage envOK answerIncoming activeState) =
      connState activeState :=
  C7_no_state_label_without_offer envOK answerIncoming activeState (by decide)

/-- C8.  When startCall() fails because capture is denied or offer
creation fails, the error surfaces through onError with a reason beginning
with the start-call prefix, no signaling message is sent, the
connection-state callback is not invoked, the abstract state is unchanged
(so it remains idle), and the call-active flag is unchanged. -/
theorem C8_startCall_failure (env : Env) (s : CState) (m : String)
    (h : env.capture = Except.error m ∨
         ((∃ st, env.capture = Except.ok st) ∧ env.createOffer = Except.error m)) :
    (startCall env s).errors = s.errors ++ ["Failed to start call: " ++ m] ∧
    (startCall env s).sent = s.sent ∧
    (startCall env s).connEvents = s.connEvents ∧
    connState (startCall env s) = connState s ∧
    (startCall env s).isCallActive = s.isCallActive := by
  rcases h with hc | ⟨⟨st, hc⟩, ho⟩
  · simp [startCall, hc, fireError, connState]
  · simp [startCall, hc, ho, fireError, fireLocalStream, createPeerConnection,
      addLocalTracks, connState]

/-- C8, witness: capture denied on the fresh client (the error reason is
the prefixed message, nothing is sent, the state stays idle), and the same
for an offer-creation failure. -/
theorem C8_startCall_failure_witness :
    ((startCall envCaptureFail idleState).errors =
       idleState.errors ++ ["Failed to start call: " ++ "Permission denied"] ∧
     (startCall envCaptureFail idleState).sent = idleState.sent ∧
     (startCall envCaptureFail idleState).connEvents = idleState.connEvents ∧
     connState (startCall envCaptureFail idleState) = connState idleState ∧
     (startCall envCaptureFail idleState).isCallActive = idleState.isCallActive) ∧
    ((startCall envOfferFail idleState).errors =
       idleState.errors ++ ["Failed to start call: " ++ "offer failed"] ∧
     (startCall envOfferFail idleState).sent = idleState.sent) :=
  ⟨C8_startCall_failure envCaptureFail idleState ("Permission denied") (Or.inl rfl),
   ⟨(C8_startCall_failure envOfferFail idleState ("offer failed")
       (Or.inr ⟨⟨sampleStream, rfl⟩, rfl⟩)).1,
    (C8_startCall_failure envOfferFail idleState ("offer failed")
       (Or.inr ⟨⟨sampleStream, rfl⟩, rfl⟩)).2.1⟩⟩

theorem find?_setFirstEnabled (ts : List Track) (k : String) (b : Bool) :
    (((setFirstEnabled ts k b).find? fun t => t.kind = k).map Track.enabled) =
      ((ts.find? fun t => t.kind = k).map fun _ => b) := by
  induction ts with
  | nil => rfl
  | cons t ts ih =>
      by_cases h : t.kind = k
      · simp [setFirstEnabled, h]
      · simp [setFirstEnabled, h, ih]

/-- C9.  With no local stream the toggles return false and change nothing;
with a local stream holding a track of the matching kind they flip the
corresponding flag, apply it to the first such track, return the new
boolean, and produce no error. -/
theorem C9_toggles (s : CState) :
    (s.localStream = none →
      toggleVideo s = (false, s) ∧ toggleAudio s = (false, s)) ∧
    (∀ st, s.localStream = some st → getVideoTracks st ≠ [] →
      (toggleVideo s).1 = (!s.isLocalVideoEnabled) ∧
      (toggleVideo s).2.isLocalVideoEnabled = (!s.isLocalVideoEnabled) ∧
      ((((toggleVideo s).2.localStream.bind fun u => (getVideoTracks u).head?).map
          Track.enabled) = some (!s.isLocalVideoEnabled)) ∧
      (toggleVideo s).2.errors = s.errors) ∧
    (∀ st, s.localStream = some st → getAudioTracks st ≠ [] →
      (toggleAudio s).1 = (!s.isLocalAudioEnabled) ∧
      (toggleAudio s).2.isLocalAudioEnabled = (!s.isLocalAudioEnabled) ∧
      ((((toggleAudio s).2.localStream.bind fun u => (getAudioTracks u).head?).map
          Track.enabled) = some (!s.isLocalAudioEnabled)) ∧
      (toggleAudio s).2.errors = s.errors) := by
  refine ⟨fun h => ?_, fun st hst hne => ?_, fun st hst hne => ?_⟩
  · simp [toggleVideo, toggleAudio, h]
  · rcases hh : (getVideoTracks st).head? with _ | t0
    · exact absurd (List.head?_eq_none_iff.mp hh) hne
    · have hf : (st.tracks.find? fun t => t.kind = videoKind) = some t0 := by
        simpa [getVideoTracks, List.filter_head?] using hh
      refine ⟨?_, ?_, ?_, ?_⟩ <;>
        simp [toggleVideo, hst, hf, getVideoTracks, List.filter_head?,
          find?_setFirstEnabled]
  · rcases hh : (getAudioTracks st).head? with _ | t0
    · exact absurd (List.head?_eq_none_iff.mp hh) hne
    · have hf : (st.tracks.find? fun t => t.kind = audioKind) = some t0 := by
        simpa [getAudioTracks, List.filter_head?] using hh
      refine ⟨?_, ?_, ?_, ?_⟩ <;>
        simp [toggleAudio, hst, hf, getAudioTracks, List.filter_head?,
          find?_setFirstEnabled]

/-- C9, witness: pre-call (no stream) both toggles return false and change
nothing; mid-call (stream held) toggleVideo flips the flag. -/
theorem C9_toggles_witness :
    (toggleVideo idleState = (false, idleState) ∧
     toggleAudio idleState = (false, idleState)) ∧
    ((toggleVideo activeState).1 = (!activeState.isLocalVideoEnabled) ∧
     (toggleVideo activeState).2.isLocalVideoEnabled =
       (!activeState.isLocalVideoEnabled) ∧
     ((((toggleVideo activeState).2.localStream.bind fun u =>
          (getVideoTracks u).head?).map Track.enabled) =
        some (!activeState.isLocalVideoEnabled)) ∧
     (toggleVideo activeState).2.errors = activeState.errors) :=
  ⟨(C9_toggles idleState).1 rfl,
   (C9_toggles activeState).2.1 sampleStream rfl (by decide)⟩

end WebRTCClient
